import Mathlib

/-!
Verification of the realtime coordination layer of the group_msg_app
repository: a shallow embedding of the socket.io message/presence handlers
(src/realtime/handlers/messageHandlers.js and the presence handler file),
the authentication middleware (src/realtime/middleware/authMiddleware.js),
the socket bootstrap (initializeSocketServer) and the service functions they
call (groupService.getGroupById, messageService.sendMessage,
Group.isMember from src/models/Group.js, and the error classes of
src/utils/errors.js).

Modelling conventions:
- JS string payload fields that may be absent are Option String; JS
  truthiness of such a field is the function jsTruthy below.
- Mongo persistence is a Db record holding the group collection (an
  association list keyed by group id) and the saved messages; the message
  encryption performed by encryptionUtils is an external collaborator of
  the relay and carries no information used by any handler output, so the
  canonical message object keeps its decrypted fields only.
- socket.io effects are reified: each emit call becomes one Emission value
  (room, optional excluded sender id, event payload); the concrete fan-out
  of an emission to sockets is computed by deliveriesOf from the room state
  at the time of the emit.
- Server timestamps (new Date semantics) are passed in as a parameter.
-/

namespace GroupMsg

/-- JS truthiness of an optional string field: undefined and the empty
string are falsy, every other string is truthy. -/
def jsTruthy : Option String → Bool
  | none => false
  | some s => !(s == "")

/-- JS String.prototype.trim: strip leading and trailing whitespace. -/
def jsTrim (s : String) : String :=
  ⟨((s.data.dropWhile Char.isWhitespace).reverse.dropWhile Char.isWhitespace).reverse⟩

/-- Identity attached to a socket by the auth middleware: userId and email
extracted from the verified token claims. -/
structure Identity where
  userId : String
  email : String
deriving DecidableEq, Repr

/-- A connected socket: its socket.io id and the identity the auth
middleware attached as socket.user. -/
structure Socket where
  sid : String
  user : Identity
deriving DecidableEq, Repr

/-- One entry of a group document member array: user id reference and
membership status (the schema enum is active, pending, banned). -/
structure Member where
  user : String
  status : String
deriving DecidableEq, Repr

/-- A group document, restricted to the members array, the only group field
the realtime layer reads. -/
structure Group where
  members : List Member
deriving DecidableEq, Repr

/-- Group.isMember from src/models/Group.js: true when some member entry
has this user id and status active. The handlers also inline the same
check over group.members. -/
def Group.isMember (g : Group) (userId : String) : Bool :=
  g.members.any (fun m => m.user == userId && m.status == "active")

/-- Canonical message object returned by messageService.sendMessage: the
saved document with its decrypted content re-attached. Encryption metadata
is produced and stored by the encryptionUtils collaborator and never read
by any handler, so it is not tracked here. -/
structure MessageObj where
  mid : Nat
  group : String
  sender : String
  content : String
  timestamp : Nat
deriving DecidableEq, Repr

/-- Persistent store visible to the realtime layer: the group collection
and the message collection, plus the id counter for saved messages. -/
structure Db where
  groups : List (String × Group)
  messages : List MessageObj
  nextId : Nat
deriving DecidableEq, Repr

/-- Group.findById: look the group id up in the collection. -/
def Db.findGroup (db : Db) (gid : String) : Option Group :=
  (db.groups.find? (fun p => p.1 == gid)).map (·.2)

/-- Classes of src/utils/errors.js that the realtime layer branches on
with instanceof. -/
inductive ErrClass where
  | notFound
  | validation
  | authorization
  | authentication
  | internalErr
deriving DecidableEq, Repr

/-- An AppError value (src/utils/errors.js): every subclass constructor
stores the human message and the code under the property name errorCode. -/
structure AppErr where
  cls : ErrClass
  message : String
  errorCode : String
deriving DecidableEq, Repr

/-- JS property access error.code on an AppError instance. The AppError
classes store the code under errorCode and define no property named code,
so this access evaluates to undefined. The realtime handlers build acks
with error: error.code, and the REST errorHandler middleware reads
err.errorCode instead. -/
def AppErr.code (_ : AppErr) : Option String := none

/-- JS property access error.details on an AppError instance: the
ValidationError class stores its payload under the property errors, not
details, so this access also evaluates to undefined. -/
def AppErr.details (_ : AppErr) : Option (List String) := none

/-- Events the server emits to clients, one constructor per distinct
emit call payload shape in the realtime layer. -/
inductive ServerEvent where
  | userActive (userId email groupId status : String)
  | userInactive (userId email groupId status : String)
  | messageNew (success : Bool) (data : MessageObj)
  | userTyping (userId userEmail groupId : String) (typing : Bool)
  | messageRead (messageId readByUserId readByEmail : String) (readTimestamp : Nat)
  | connectSuccess (userId userEmail socketId : String) (timestamp : Nat)
deriving DecidableEq, Repr

/-- One socket.io emit call: target room, the sender id excluded from the
fan-out when the call was socket.to(room).emit (none for io.in(room).emit,
which reaches every socket in the room), and the event payload. -/
structure Emission where
  room : String
  exceptSid : Option String
  ev : ServerEvent
deriving DecidableEq, Repr

/-- One delivered event: the receiving socket id and the payload. -/
structure Delivery where
  dest : String
  ev : ServerEvent
deriving DecidableEq, Repr

/-- In-process gateway state: room membership (room name to the socket ids
currently joined, first entry wins on lookup), the module-level
globalActiveUsers map (user id to the group ids the user is active in),
and the connected sockets. -/
structure SrvState where
  rooms : List (String × List String)
  activeUsers : List (String × List String)
  sockets : List Socket
deriving DecidableEq, Repr

/-- Socket ids an association list of rooms records for one room name:
the first entry with this key wins, absence gives the empty set. -/
def lookupRoom : List (String × List String) → String → List String
  | [], _ => []
  | (r, ms) :: rest, room => if r == room then ms else lookupRoom rest room

/-- Socket ids currently in a room. -/
def SrvState.roomMembers (st : SrvState) (room : String) : List String :=
  lookupRoom st.rooms room

/-- Resolve a socket id to its Socket record. -/
def SrvState.findSocket (st : SrvState) (sid : String) : Option Socket :=
  st.sockets.find? (fun s => s.sid == sid)

/-- io.in(room).fetchSockets(): the socket records of the room members. -/
def SrvState.roomSockets (st : SrvState) (room : String) : List Socket :=
  (st.roomMembers room).filterMap st.findSocket

/-- Room name for a group, as built by every handler. -/
def roomKey (gid : String) : String := "group:" ++ gid

/-- socket.join: add the socket id to the room (idempotent, a socket is in
a room at most once). -/
def addToRoom : List (String × List String) → String → String → List (String × List String)
  | [], room, sid => [(room, [sid])]
  | (r, ms) :: rest, room, sid =>
    if r == room then (r, if sid ∈ ms then ms else ms ++ [sid]) :: rest
    else (r, ms) :: addToRoom rest room sid

/-- socket.leave: drop the socket id from the room. -/
def removeFromRoom : List (String × List String) → String → String → List (String × List String)
  | [], _, _ => []
  | (r, ms) :: rest, room, sid =>
    if r == room then (r, ms.filter (fun x => x != sid)) :: rest
    else (r, ms) :: removeFromRoom rest room sid

/-- globalActiveUsers join update: create the user entry when absent, then
add the group id to the user set (no duplicates, Set semantics). -/
def presenceAdd : List (String × List String) → String → String → List (String × List String)
  | [], uid, gid => [(uid, [gid])]
  | (u, gs) :: rest, uid, gid =>
    if u == uid then (u, if gid ∈ gs then gs else gs ++ [gid]) :: rest
    else (u, gs) :: presenceAdd rest uid gid

/-- globalActiveUsers leave update: delete the group id from the user set
and drop the user entry when its set becomes empty. -/
def presenceRemove : List (String × List String) → String → String → List (String × List String)
  | [], _, _ => []
  | (u, gs) :: rest, uid, gid =>
    if u == uid then
      let gs2 := gs.filter (fun g => g != gid)
      if gs2.isEmpty then rest else (u, gs2) :: rest
    else (u, gs) :: presenceRemove rest uid gid

/-- globalActiveUsers.delete(userId). -/
def presenceDelete (m : List (String × List String)) (uid : String) :
    List (String × List String) :=
  m.filter (fun p => p.1 != uid)

/-- globalActiveUsers.get(userId), none when the map has no entry. -/
def presenceGet : List (String × List String) → String → Option (List String)
  | [], _ => none
  | (u, gs) :: rest, uid => if u == uid then some gs else presenceGet rest uid

/-- Recipient socket ids of one emission, computed from the room state at
emit time: socket.to(room) reaches every room member other than the
sender, io.in(room) reaches every room member. -/
def Emission.recipients (e : Emission) (st : SrvState) : List String :=
  match e.exceptSid with
  | some sid => (st.roomMembers e.room).filter (fun t => t != sid)
  | none => st.roomMembers e.room

/-- Fan an emission list out to concrete deliveries under a room state. -/
def deliveriesOf (st : SrvState) : List Emission → List Delivery
  | [] => []
  | e :: rest => (e.recipients st).map (fun t => ⟨t, e.ev⟩) ++ deliveriesOf st rest

/-- Structured acknowledgement payload: the data field of a send-message
ack (the canonical message) or of a get-active-users ack (the user list). -/
structure ActiveUser where
  userId : String
  email : String
  status : String
deriving DecidableEq, Repr

inductive AckData where
  | msg (m : MessageObj)
  | users (us : List ActiveUser)
deriving DecidableEq, Repr

/-- Acknowledgement object passed to the caller callback. Absent JS object
properties are none. -/
structure Ack where
  success : Bool
  message : Option String := none
  error : Option String := none
  details : Option (List String) := none
  data : Option AckData := none
deriving DecidableEq, Repr

/-- Result of one acknowledged handler invocation: the ack given to the
caller, the emit calls performed (in order), and the state and store after
the handler returns. -/
structure HandlerResult where
  ack : Ack
  emits : List Emission
  state : SrvState
  db : Db
deriving DecidableEq, Repr

/-- handleError of messageHandlers.js: translate a caught error into an
ack. The first three branches write error: error.code and, for validation
errors, details: error.details; both properties are undefined on AppError
instances (see AppErr.code and AppErr.details). -/
def handleError (e : AppErr) (defaultMessage : String) : Ack :=
  match e.cls with
  | .notFound => { success := false, message := some e.message, error := e.code }
  | .validation =>
      { success := false, message := some e.message, error := e.code, details := e.details }
  | .authorization => { success := false, message := some e.message, error := e.code }
  | _ => { success := false, message := some defaultMessage, error := some "INTERNAL_ERROR" }

namespace MessageService

/-- messageService.sendMessage (services/messageService.js): find the
group, require Group.isMember, require non-empty trimmed content, then
encrypt and save the message and return the saved document with the
decrypted content attached. The thrown AppError values are returned in the
error branch. -/
def sendMessage (db : Db) (userId groupId content : String) (now : Nat) :
    Except AppErr (MessageObj × Db) :=
  match db.findGroup groupId with
  | none => .error ⟨.notFound, "Group not found", "GROUP_NOT_FOUND"⟩
  | some group =>
    if !(group.isMember userId) then
      .error ⟨.authorization, "Only group members can send messages to the group",
        "NOT_GROUP_MEMBER"⟩
    else if content == "" || jsTrim content == "" then
      .error ⟨.validation, "Message content cannot be empty", "EMPTY_MESSAGE"⟩
    else
      let msg : MessageObj :=
        { mid := db.nextId, group := groupId, sender := userId,
          content := content, timestamp := now }
      .ok (msg, { db with messages := db.messages ++ [msg], nextId := db.nextId + 1 })

end MessageService

/-- handleSendMessage (messageHandlers.js): validate both fields, look the
group up through groupService.getGroupById (a NotFoundError from it is
acked as GROUP_NOT_FOUND by the inner catch), run the inline active-member
check, call messageService.sendMessage, then emit message:new to the room
through socket.to (every room member except the sender) and ack the sender
with the same canonical object plus a confirmation string. Service errors
other than NotFoundError reach the outer catch and go through
handleError. -/
def handleSendMessage (db : Db) (st : SrvState) (sock : Socket)
    (groupId content : Option String) (now : Nat) : HandlerResult :=
  let userId := sock.user.userId
  if !(jsTruthy groupId) || !(jsTruthy content) then
    ⟨{ success := false, message := some "Group ID and message content are required",
       error := some "INVALID_INPUT" }, [], st, db⟩
  else
    let gid := groupId.getD ""
    let c := content.getD ""
    match db.findGroup gid with
    | none =>
      ⟨{ success := false, message := some "Group not found",
         error := some "GROUP_NOT_FOUND" }, [], st, db⟩
    | some group =>
      if !(group.members.any (fun m => m.user == userId && m.status == "active")) then
        ⟨{ success := false, message := some "You are not a member of this group",
           error := some "NOT_GROUP_MEMBER" }, [], st, db⟩
      else
        match MessageService.sendMessage db userId gid c now with
        | .error e =>
          if e.cls == .notFound then
            ⟨{ success := false, message := some "Group not found",
               error := some "GROUP_NOT_FOUND" }, [], st, db⟩
          else
            ⟨handleError e "Error sending message", [], st, db⟩
        | .ok (message, db2) =>
          ⟨{ success := true, message := some "Message sent successfully",
             data := some (.msg message) },
           [⟨roomKey gid, some sock.sid, .messageNew true message⟩], st, db2⟩

/-- handleMessageRead (messageHandlers.js): require both fields, then
broadcast message:read through io.in (the whole room, the reader
included) and ack with a bare success flag. No group lookup or membership
check is performed: the db parameter is available through the container
but never consulted. -/
def handleMessageRead (db : Db) (st : SrvState) (sock : Socket)
    (messageId groupId : Option String) (now : Nat) : HandlerResult :=
  if !(jsTruthy messageId) || !(jsTruthy groupId) then
    ⟨{ success := false, message := some "Message ID and group ID are required",
       error := some "INVALID_INPUT" }, [], st, db⟩
  else
    let gid := groupId.getD ""
    ⟨{ success := true },
     [⟨roomKey gid, none,
       .messageRead (messageId.getD "") sock.user.userId sock.user.email now⟩],
     st, db⟩

/-- handleJoinGroup (presence handler file): validate the field, look the
group up (NotFoundError acked as GROUP_NOT_FOUND), run the inline
active-member check and on failure throw
AuthorizationError(message, NOT_GROUP_MEMBER), which the catch acks with
error: error.code (undefined, see AppErr.code). On success: socket.join,
globalActiveUsers update, user:active broadcast through socket.to (the
joining socket excluded), success ack. -/
def handleJoinGroup (db : Db) (st : SrvState) (sock : Socket)
    (groupId : Option String) : HandlerResult :=
  if !(jsTruthy groupId) then
    ⟨{ success := false, message := some "Group ID is required",
       error := some "INVALID_INPUT" }, [], st, db⟩
  else
    let gid := groupId.getD ""
    let userId := sock.user.userId
    match db.findGroup gid with
    | none =>
      ⟨{ success := false, message := some "Group not found",
         error := some "GROUP_NOT_FOUND" }, [], st, db⟩
    | some group =>
      if !(group.members.any (fun m => m.user == userId && m.status == "active")) then
        let e : AppErr := ⟨.authorization, "You are not a member of this group",
          "NOT_GROUP_MEMBER"⟩
        ⟨{ success := false, message := some e.message, error := e.code }, [], st, db⟩
      else
        let room := roomKey gid
        let st2 : SrvState := { st with rooms := addToRoom st.rooms room sock.sid }
        let st3 : SrvState := { st2 with activeUsers := presenceAdd st2.activeUsers userId gid }
        ⟨{ success := true, message := some "Successfully joined group room" },
         [⟨room, some sock.sid, .userActive userId sock.user.email gid "online"⟩],
         st3, db⟩

/-- handleLeaveGroup (presence handler file): validate the field, then
unconditionally socket.leave, update globalActiveUsers (dropping the user
entry when its set empties), broadcast user:inactive through socket.to,
and ack success. No prior-membership check of any kind is made. -/
def handleLeaveGroup (db : Db) (st : SrvState) (sock : Socket)
    (groupId : Option String) : HandlerResult :=
  if !(jsTruthy groupId) then
    ⟨{ success := false, message := some "Group ID is required",
       error := some "INVALID_INPUT" }, [], st, db⟩
  else
    let gid := groupId.getD ""
    let userId := sock.user.userId
    let room := roomKey gid
    let st2 : SrvState := { st with rooms := removeFromRoom st.rooms room sock.sid }
    let st3 : SrvState := { st2 with activeUsers := presenceRemove st2.activeUsers userId gid }
    ⟨{ success := true, message := some "Successfully left group room" },
     [⟨room, some sock.sid, .userInactive userId sock.user.email gid "offline"⟩],
     st3, db⟩

/-- handleGetActiveUsers (presence handler file): validate the field, look
the group up (NotFoundError acked as GROUP_NOT_FOUND), run the same
active-member check as join (the AuthorizationError is acked with
error: error.code, undefined), then fetch the room sockets and map each
socket, one entry per socket, to its user id, email and the literal
status online. -/
def handleGetActiveUsers (db : Db) (st : SrvState) (sock : Socket)
    (groupId : Option String) : HandlerResult :=
  if !(jsTruthy groupId) then
    ⟨{ success := false, message := some "Group ID is required",
       error := some "INVALID_INPUT" }, [], st, db⟩
  else
    let gid := groupId.getD ""
    let userId := sock.user.userId
    match db.findGroup gid with
    | none =>
      ⟨{ success := false, message := some "Group not found",
         error := some "GROUP_NOT_FOUND" }, [], st, db⟩
    | some group =>
      if !(group.members.any (fun m => m.user == userId && m.status == "active")) then
        let e : AppErr := ⟨.authorization, "You are not a member of this group",
          "NOT_GROUP_MEMBER"⟩
        ⟨{ success := false, message := some e.message, error := e.code }, [], st, db⟩
      else
        let activeUsers := (st.roomSockets (roomKey gid)).map
          (fun s => ActiveUser.mk s.user.userId s.user.email "online")
        ⟨{ success := true, data := some (.users activeUsers) }, [], st, db⟩

/-- Transport-level cleanup socket.io performs before the disconnect event
fires: the socket has left every room and is no longer connected. -/
def SrvState.dropSocket (st : SrvState) (sid : String) : SrvState :=
  { st with
    rooms := st.rooms.map (fun p => (p.1, p.2.filter (fun x => x != sid))),
    sockets := st.sockets.filter (fun s => s.sid != sid) }

/-- handleDisconnect (presence handler file), run on the state after the
transport cleanup: when globalActiveUsers has an entry for the user, emit
one user:inactive broadcast per group id in the entry through socket.to,
then delete the user entry. The handler has no callback, so the result is
the emission list and the new state. -/
def handleDisconnect (st : SrvState) (sock : Socket) : List Emission × SrvState :=
  let userId := sock.user.userId
  match presenceGet st.activeUsers userId with
  | none => ([], st)
  | some groups =>
    (groups.map (fun gid =>
        Emission.mk (roomKey gid) (some sock.sid)
          (.userInactive userId sock.user.email gid "offline")),
     { st with activeUsers := presenceDelete st.activeUsers userId })

/-- Full disconnect processing: transport cleanup, then the handler. -/
def disconnectSocket (st : SrvState) (sock : Socket) : List Emission × SrvState :=
  handleDisconnect (st.dropSocket sock.sid) sock

/-- Connection-time handshake data: the auth payload token and the
authorization header, each possibly absent. -/
structure Handshake where
  authToken : Option String
  authHeader : Option String
deriving DecidableEq, Repr

/-- The Token Verifier collaborator (jwtUtils.verifyToken): the set of
currently valid tokens with the identity claims each decodes to;
verification of any other token throws. -/
structure AuthEnv where
  tokens : List (String × Identity)
deriving DecidableEq, Repr

def verifyToken (env : AuthEnv) (t : String) : Option Identity :=
  (env.tokens.find? (fun p => p.1 == t)).map (·.2)

/-- Character-level worker for replaceFirstOcc: delete the first
occurrence of the pattern, leave the text unchanged when it never
occurs. -/
def dropFirstOccAux (pat : List Char) : List Char → List Char
  | [] => []
  | c :: cs =>
    if pat.isPrefixOf (c :: cs) then (c :: cs).drop pat.length
    else c :: dropFirstOccAux pat cs

/-- JS String.replace with a plain-string pattern and empty replacement:
delete only the first occurrence. -/
def replaceFirstOcc (s pat : String) : String :=
  ⟨dropFirstOccAux pat.data s.data⟩

/-- Token extraction of the auth middleware: the auth payload token when
truthy, otherwise the authorization header with its first occurrence of
the Bearer prefix removed (undefined when the header is absent). -/
def extractToken (h : Handshake) : Option String :=
  if jsTruthy h.authToken then h.authToken
  else h.authHeader.map (fun a => replaceFirstOcc a "Bearer ")

/-- createAuthMiddleware (src/realtime/middleware/authMiddleware.js):
falsy extracted token rejects with NO_AUTH_TOKEN; a failed verification
rejects with INVALID_TOKEN; success attaches userId and email from the
decoded claims as socket.user. -/
def authMiddleware (env : AuthEnv) (h : Handshake) : Except AppErr Identity :=
  let token := extractToken h
  if !(jsTruthy token) then
    .error ⟨.authentication, "Authentication error", "NO_AUTH_TOKEN"⟩
  else
    match verifyToken env (token.getD "") with
    | none => .error ⟨.authentication, "Invalid or expired token", "INVALID_TOKEN"⟩
    | some decoded => .ok ⟨decoded.userId, decoded.email⟩

/-- Connection establishment (initializeSocketServer in the socket
bootstrap): the middleware runs first and a rejection aborts the
connection; on success the socket exists with the attached identity and
the server emits connect:success with user id, email, socket id and the
server timestamp to that socket. -/
def attemptConnection (env : AuthEnv) (h : Handshake) (sid : String) (now : Nat) :
    Except AppErr (Socket × Delivery) :=
  match authMiddleware env h with
  | .error e => .error e
  | .ok user =>
    .ok (⟨sid, user⟩,
         ⟨sid, .connectSuccess user.userId user.email sid now⟩)

/-! Concrete fixtures used by witness and counterexample theorems. -/

/-- A group with two active members and one pending member. -/
def gDemo : Group := ⟨[⟨"u1", "active"⟩, ⟨"u2", "active"⟩, ⟨"u3", "pending"⟩]⟩

def dbDemo : Db := ⟨[("g1", gDemo)], [], 0⟩

def sockA : Socket := ⟨"s1", ⟨"u1", "a@x"⟩⟩

def sockB : Socket := ⟨"s2", ⟨"u2", "b@x"⟩⟩

def sockC : Socket := ⟨"s3", ⟨"u3", "c@x"⟩⟩

/-- A second connection of the same user as sockA. -/
def sockA2 : Socket := ⟨"s1b", ⟨"u1", "a@x"⟩⟩

/-- State where only sockB has joined the g1 room. -/
def stJoin : SrvState := ⟨[("group:g1", ["s2"])], [("u2", ["g1"])], [sockA, sockB, sockC]⟩

/-- State where sockB and sockA are both in the g1 room. -/
def stBoth : SrvState :=
  ⟨[("group:g1", ["s2", "s1"])], [("u2", ["g1"]), ("u1", ["g1"])], [sockA, sockB]⟩

/-- State where two connections of the same user u1 are in the g1 room. -/
def stDup : SrvState := ⟨[("group:g1", ["s1", "s1b"])], [("u1", ["g1"])], [sockA, sockA2]⟩

/-- A second group containing only u1. -/
def gSolo : Group := ⟨[⟨"u1", "active"⟩]⟩

def dbMulti : Db := ⟨[("g1", gDemo), ("gA", gSolo)], [], 0⟩

/-- State where u1 is active in two groups and u2 shares one room. -/
def stMulti : SrvState :=
  ⟨[("group:g1", ["s1", "s2"]), ("group:gA", ["s1"])],
   [("u1", ["g1", "gA"]), ("u2", ["g1"])], [sockA, sockB]⟩

/-- A verifier that accepts exactly one token. -/
def envDemo : AuthEnv := ⟨[("tokA", ⟨"u1", "a@x"⟩)]⟩

/-! Lemmas about the room and presence maps. -/

theorem mem_lookupRoom_addToRoom (rooms : List (String × List String)) (room sid : String) :
    sid ∈ lookupRoom (addToRoom rooms room sid) room := by
  induction rooms with
  | nil => simp [addToRoom, lookupRoom]
  | cons p rest ih =>
    obtain ⟨r, ms⟩ := p
    by_cases h : r = room
    · subst h
      by_cases hm : sid ∈ ms <;> simp [addToRoom, lookupRoom, hm]
    · simpa [addToRoom, lookupRoom, h] using ih

theorem filter_lookupRoom_addToRoom (rooms : List (String × List String)) (room sid : String) :
    (lookupRoom (addToRoom rooms room sid) room).filter (fun t => t != sid)
      = (lookupRoom rooms room).filter (fun t => t != sid) := by
  induction rooms with
  | nil => simp [addToRoom, lookupRoom]
  | cons p rest ih =>
    obtain ⟨r, ms⟩ := p
    by_cases h : r = room
    · subst h
      by_cases hm : sid ∈ ms <;> simp [addToRoom, lookupRoom, hm, List.filter_append]
    · simpa [addToRoom, lookupRoom, h] using ih

theorem lookupRoom_removeFromRoom (rooms : List (String × List String)) (room sid : String) :
    lookupRoom (removeFromRoom rooms room sid) room
      = (lookupRoom rooms room).filter (fun t => t != sid) := by
  induction rooms with
  | nil => simp [removeFromRoom, lookupRoom]
  | cons p rest ih =>
    obtain ⟨r, ms⟩ := p
    rcases Bool.eq_false_or_eq_true (r == room) with h | h <;>
      simp only [removeFromRoom, lookupRoom, h, if_true, if_false] <;>
      simp [ih]

theorem lookupRoom_filter_all (rooms : List (String × List String)) (room sid : String) :
    lookupRoom (rooms.map (fun p => (p.1, p.2.filter (fun x => x != sid)))) room
      = (lookupRoom rooms room).filter (fun x => x != sid) := by
  induction rooms with
  | nil => simp [lookupRoom]
  | cons p rest ih =>
    obtain ⟨r, ms⟩ := p
    rcases Bool.eq_false_or_eq_true (r == room) with h | h <;>
      simp only [List.map_cons, lookupRoom, h, if_true, if_false] at ih ⊢ <;>
      simp [ih]

theorem filter_bne_idem (l : List String) (a : String) :
    (l.filter (fun x => x != a)).filter (fun x => x != a) = l.filter (fun x => x != a) := by
  induction l with
  | nil => rfl
  | cons x xs ih =>
    by_cases h : x = a <;> simp [h, ih]

theorem presenceGet_presenceAdd_self (m : List (String × List String)) (uid gid : String) :
    ∃ gs, presenceGet (presenceAdd m uid gid) uid = some gs ∧ gid ∈ gs := by
  induction m with
  | nil => exact ⟨[gid], by simp [presenceAdd, presenceGet]⟩
  | cons p rest ih =>
    obtain ⟨u, gs⟩ := p
    by_cases h : u = uid
    · subst h
      by_cases hm : gid ∈ gs
      · exact ⟨gs, by simp [presenceAdd, presenceGet, hm], hm⟩
      · exact ⟨gs ++ [gid], by simp [presenceAdd, presenceGet, hm], by simp⟩
    · simpa [presenceAdd, presenceGet, h] using ih

theorem presenceGet_presenceDelete_self (m : List (String × List String)) (uid : String) :
    presenceGet (presenceDelete m uid) uid = none := by
  induction m with
  | nil => rfl
  | cons p rest ih =>
    obtain ⟨u, gs⟩ := p
    by_cases h : u = uid
    · simpa [presenceDelete, presenceGet, h] using ih
    · simpa [presenceDelete, presenceGet, h] using ih

theorem presenceRemove_of_absent (m : List (String × List String)) (uid gid : String)
    (h : presenceGet m uid = none) : presenceRemove m uid gid = m := by
  induction m with
  | nil => rfl
  | cons p rest ih =>
    obtain ⟨u, gs⟩ := p
    by_cases hu : u = uid
    · simp [presenceGet, hu] at h
    · simp [presenceGet, hu] at h
      simp [presenceRemove, hu, ih h]

/-! Counting lemmas for delivered events. -/

theorem count_map_mkDelivery (l : List String) (ev : ServerEvent) (t : String) :
    ((l.map (fun s => Delivery.mk s ev)).count ⟨t, ev⟩) = l.count t := by
  induction l with
  | nil => rfl
  | cons x xs ih =>
    by_cases h : x = t <;>
      simp [List.count_cons, h, ih, Delivery.mk.injEq]

theorem count_map_mkDelivery_zero (l : List String) (ev ev2 : ServerEvent) (t : String)
    (h : ev2 ≠ ev) : ((l.map (fun s => Delivery.mk s ev)).count ⟨t, ev2⟩) = 0 := by
  rw [List.count_eq_zero]
  intro hmem
  rcases List.mem_map.mp hmem with ⟨s, _, hs⟩
  exact h (congrArg Delivery.ev hs).symm

theorem count_filter_bne (l : List String) (a t : String) (h : t ≠ a) :
    (l.filter (fun x => x != a)).count t = l.count t := by
  induction l with
  | nil => rfl
  | cons x xs ih =>
    by_cases hx : x = a
    · subst hx
      simp [List.count_cons, ih, Ne.symm h]
    · simp [List.count_cons, hx, ih]

theorem count_filter_bne_self (l : List String) (a : String) :
    (l.filter (fun x => x != a)).count a = 0 := by
  rw [List.count_eq_zero]
  intro hmem
  simp at hmem

theorem count_nodup (l : List String) (t : String) (h : l.Nodup) :
    l.count t = if t ∈ l then 1 else 0 := by
  by_cases hm : t ∈ l
  · simp [hm, List.count_eq_one_of_mem h hm]
  · simp [hm, List.count_eq_zero_of_not_mem hm]

theorem count_userInactive_flat_zero (st : SrvState) (u e sid : String) (gs : List String)
    (g t : String) (hg : g ∉ gs) :
    (deliveriesOf st (gs.map (fun gid =>
        Emission.mk (roomKey gid) (some sid) (.userInactive u e gid "offline")))).count
      ⟨t, .userInactive u e g "offline"⟩ = 0 := by
  induction gs with
  | nil => rfl
  | cons x xs ih =>
    simp only [List.map_cons, deliveriesOf, List.count_append]
    have hx : g ≠ x := fun hh => hg (hh ▸ List.mem_cons_self x xs)
    rw [count_map_mkDelivery_zero _ _ _ _ (by simp [hx])]
    simpa using ih (fun hm => hg (List.mem_cons_of_mem _ hm))

theorem count_userInactive_flat (st : SrvState) (u e sid : String) (gs : List String)
    (g t : String) (hnd : gs.Nodup) (hg : g ∈ gs) :
    (deliveriesOf st (gs.map (fun gid =>
        Emission.mk (roomKey gid) (some sid) (.userInactive u e gid "offline")))).count
      ⟨t, .userInactive u e g "offline"⟩
      = ((lookupRoom st.rooms (roomKey g)).filter (fun x => x != sid)).count t := by
  induction gs with
  | nil => cases hg
  | cons x xs ih =>
    simp only [List.map_cons, deliveriesOf, List.count_append]
    rcases List.mem_cons.mp hg with rfl | hgx
    · have hnotin : g ∉ xs := (List.nodup_cons.mp hnd).1
      rw [count_userInactive_flat_zero st u e sid xs g t hnotin]
      simp only [Emission.recipients]
      rw [count_map_mkDelivery]
      simp [SrvState.roomMembers]
    · have hx : g ≠ x := by
        rintro rfl
        exact (List.nodup_cons.mp hnd).1 hgx
      rw [count_map_mkDelivery_zero _ _ _ _ (by simp [hx])]
      simpa using ih (List.nodup_cons.mp hnd).2 hgx

theorem deliveriesOf_userInactive_events (st : SrvState) (u e sid : String) (gs : List String) :
    ∀ d ∈ deliveriesOf st (gs.map (fun gid =>
        Emission.mk (roomKey gid) (some sid) (.userInactive u e gid "offline"))),
      (∃ g2, g2 ∈ gs ∧ d.ev = .userInactive u e g2 "offline") ∧ d.dest ≠ sid := by
  induction gs with
  | nil => intro d hd; cases hd
  | cons x xs ih =>
    intro d hd
    simp only [List.map_cons, deliveriesOf, List.mem_append] at hd
    rcases hd with hd | hd
    · rcases List.mem_map.mp hd with ⟨s, hs, rfl⟩
      refine ⟨⟨x, List.mem_cons_self x xs, rfl⟩, ?_⟩
      simp only [Emission.recipients, List.mem_filter] at hs
      simpa using hs.2
    · rcases ih d hd with ⟨⟨g2, hg2, he⟩, hdest⟩
      exact ⟨⟨g2, List.mem_cons_of_mem _ hg2, he⟩, hdest⟩

/-! Claim theorems. -/

/-- Equational description of the success path of handleJoinGroup. -/
theorem handleJoinGroup_success_eq (db : Db) (st : SrvState) (sock : Socket) (gid : String)
    (g : Group) (hgid : gid ≠ "") (hg : db.findGroup gid = some g)
    (hm : g.isMember sock.user.userId = true) :
    handleJoinGroup db st sock (some gid) =
      ⟨{ success := true, message := some "Successfully joined group room" },
       [⟨roomKey gid, some sock.sid,
         .userActive sock.user.userId sock.user.email gid "online"⟩],
       { st with rooms := addToRoom st.rooms (roomKey gid) sock.sid,
                 activeUsers := presenceAdd st.activeUsers sock.user.userId gid },
       db⟩ := by
  have h1 : jsTruthy (some gid) = true := by simp [jsTruthy, hgid]
  rw [Group.isMember] at hm
  simp [handleJoinGroup, h1, hg, hm]

/-- C1: a join-group request by an authenticated connection whose user is
an active member of an existing group succeeds: the ack reports success,
the connection is added to the room, the presence map records the pair of
user id and group id, every other connection already joined to the room
(and only those) receives exactly one presence-active event for that user
and group, and the joining connection never receives its own join
notification. -/
theorem join_group_active_member_ok (db : Db) (st : SrvState) (sock : Socket) (gid : String)
    (g : Group) (hgid : gid ≠ "") (hg : db.findGroup gid = some g)
    (hm : g.isMember sock.user.userId = true)
    (hnd : (st.roomMembers (roomKey gid)).Nodup) :
    (handleJoinGroup db st sock (some gid)).ack
      = { success := true, message := some "Successfully joined group room" } ∧
    sock.sid ∈ (handleJoinGroup db st sock (some gid)).state.roomMembers (roomKey gid) ∧
    (∃ gs, presenceGet (handleJoinGroup db st sock (some gid)).state.activeUsers
        sock.user.userId = some gs ∧ gid ∈ gs) ∧
    (∀ t : String,
      ((deliveriesOf (handleJoinGroup db st sock (some gid)).state
          (handleJoinGroup db st sock (some gid)).emits).count
        ⟨t, .userActive sock.user.userId sock.user.email gid "online"⟩)
        = if t ∈ st.roomMembers (roomKey gid) ∧ t ≠ sock.sid then 1 else 0) ∧
    (∀ d ∈ deliveriesOf (handleJoinGroup db st sock (some gid)).state
        (handleJoinGroup db st sock (some gid)).emits,
      d.ev = .userActive sock.user.userId sock.user.email gid "online" ∧ d.dest ≠ sock.sid) := by
  have he := handleJoinGroup_success_eq db st sock gid g hgid hg hm
  rw [he]
  refine ⟨rfl, ?_, ?_, ?_, ?_⟩
  · exact mem_lookupRoom_addToRoom st.rooms (roomKey gid) sock.sid
  · exact presenceGet_presenceAdd_self st.activeUsers sock.user.userId gid
  · intro t
    simp only [deliveriesOf, Emission.recipients, SrvState.roomMembers, List.append_nil]
    rw [filter_lookupRoom_addToRoom]
    by_cases ht : t = sock.sid
    · subst ht
      rw [count_map_mkDelivery, count_filter_bne_self]
      simp
    · rw [count_map_mkDelivery, count_filter_bne _ _ _ ht]
      rw [SrvState.roomMembers] at hnd
      rw [count_nodup _ _ hnd]
      simp [SrvState.roomMembers, ht]
  · intro d hd
    simp only [deliveriesOf, Emission.recipients, List.append_nil] at hd
    rcases List.mem_map.mp hd with ⟨s, hs, rfl⟩
    refine ⟨rfl, ?_⟩
    simp only [List.mem_filter] at hs
    simpa using hs.2

/-- Witness for C1 at a concrete state: u1 joins g1 while s2 is already in
the room; s2 receives exactly one presence-active event and the joining
socket s1 receives none. -/
theorem join_group_active_member_ok_witness :
    (handleJoinGroup dbDemo stJoin sockA (some "g1")).ack
      = { success := true, message := some "Successfully joined group room" } ∧
    ((deliveriesOf (handleJoinGroup dbDemo stJoin sockA (some "g1")).state
        (handleJoinGroup dbDemo stJoin sockA (some "g1")).emits).count
      ⟨"s2", .userActive sockA.user.userId sockA.user.email "g1" "online"⟩)
      = (if "s2" ∈ stJoin.roomMembers (roomKey "g1") ∧ "s2" ≠ sockA.sid then 1 else 0) ∧
    ((deliveriesOf (handleJoinGroup dbDemo stJoin sockA (some "g1")).state
        (handleJoinGroup dbDemo stJoin sockA (some "g1")).emits).count
      ⟨"s1", .userActive sockA.user.userId sockA.user.email "g1" "online"⟩)
      = (if "s1" ∈ stJoin.roomMembers (roomKey "g1") ∧ "s1" ≠ sockA.sid then 1 else 0) := by
  have h := join_group_active_member_ok dbDemo stJoin sockA "g1" gDemo
    (by decide) (by decide) (by decide) (by decide)
  exact ⟨h.1, h.2.2.2.1 "s2", h.2.2.2.1 "s1"⟩

/-- C2: disconnecting a connection whose user has a presence entry of
exactly the groups gs emits one presence-inactive broadcast per group of
the entry (in entry order); for each such group every remaining member of
that room, and nobody else, receives exactly one presence-inactive event
for that user and group; every delivered event names a group of the entry
and never reaches the disconnected socket; and afterwards the presence map
holds no entry for that user. -/
theorem disconnect_sweeps_presence (st : SrvState) (sock : Socket) (gs : List String)
    (hp : presenceGet st.activeUsers sock.user.userId = some gs)
    (hnd : gs.Nodup)
    (hrooms : ∀ g ∈ gs, ((st.dropSocket sock.sid).roomMembers (roomKey g)).Nodup) :
    (disconnectSocket st sock).1
      = gs.map (fun gid => Emission.mk (roomKey gid) (some sock.sid)
          (.userInactive sock.user.userId sock.user.email gid "offline")) ∧
    (∀ g ∈ gs, ∀ t : String,
      ((deliveriesOf (disconnectSocket st sock).2 (disconnectSocket st sock).1).count
        ⟨t, .userInactive sock.user.userId sock.user.email g "offline"⟩)
        = if t ∈ (st.dropSocket sock.sid).roomMembers (roomKey g) then 1 else 0) ∧
    (∀ d ∈ deliveriesOf (disconnectSocket st sock).2 (disconnectSocket st sock).1,
      (∃ g2, g2 ∈ gs ∧
        d.ev = .userInactive sock.user.userId sock.user.email g2 "offline") ∧
      d.dest ≠ sock.sid) ∧
    presenceGet (disconnectSocket st sock).2.activeUsers sock.user.userId = none := by
  have hp0 : presenceGet (st.dropSocket sock.sid).activeUsers sock.user.userId = some gs := hp
  have he : disconnectSocket st sock
      = (gs.map (fun gid => Emission.mk (roomKey gid) (some sock.sid)
            (.userInactive sock.user.userId sock.user.email gid "offline")),
         { st.dropSocket sock.sid with
            activeUsers := presenceDelete (st.dropSocket sock.sid).activeUsers
              sock.user.userId }) := by
    simp [disconnectSocket, handleDisconnect, hp0]
  rw [he]
  refine ⟨rfl, ?_, ?_, ?_⟩
  · intro g hg t
    rw [count_userInactive_flat _ _ _ _ _ _ _ hnd hg]
    have hroom : lookupRoom (st.dropSocket sock.sid).rooms (roomKey g)
        = (lookupRoom st.rooms (roomKey g)).filter (fun x => x != sock.sid) := by
      simp only [SrvState.dropSocket]
      exact lookupRoom_filter_all st.rooms (roomKey g) sock.sid
    have hfix : (lookupRoom (st.dropSocket sock.sid).rooms (roomKey g)).filter
          (fun x => x != sock.sid)
        = lookupRoom (st.dropSocket sock.sid).rooms (roomKey g) := by
      rw [hroom]
      exact filter_bne_idem _ _
    simp only [SrvState.roomMembers]
    rw [hfix]
    exact count_nodup _ _ (by simpa [SrvState.roomMembers] using hrooms g hg)
  · intro d hd
    exact deliveriesOf_userInactive_events _ _ _ _ _ d hd
  · exact presenceGet_presenceDelete_self _ _

/-- Witness for C2: u1 was active in g1 and gA; disconnecting s1 emits one
inactive broadcast per group, s2 (the remaining member of the g1 room)
receives exactly one event for g1 and none for gA, and the presence entry
of u1 is gone. -/
theorem disconnect_sweeps_presence_witness :
    (disconnectSocket stMulti sockA).1
      = ["g1", "gA"].map (fun gid => Emission.mk (roomKey gid) (some sockA.sid)
          (.userInactive sockA.user.userId sockA.user.email gid "offline")) ∧
    ((deliveriesOf (disconnectSocket stMulti sockA).2 (disconnectSocket stMulti sockA).1).count
      ⟨"s2", .userInactive sockA.user.userId sockA.user.email "g1" "offline"⟩)
      = (if "s2" ∈ (stMulti.dropSocket sockA.sid).roomMembers (roomKey "g1") then 1 else 0) ∧
    ((deliveriesOf (disconnectSocket stMulti sockA).2 (disconnectSocket stMulti sockA).1).count
      ⟨"s2", .userInactive sockA.user.userId sockA.user.email "gA" "offline"⟩)
      = (if "s2" ∈ (stMulti.dropSocket sockA.sid).roomMembers (roomKey "gA") then 1 else 0) ∧
    presenceGet (disconnectSocket stMulti sockA).2.activeUsers sockA.user.userId = none := by
  have h := disconnect_sweeps_presence stMulti sockA ["g1", "gA"]
    (by decide) (by decide) (by decide)
  exact ⟨h.1, h.2.1 "g1" (by decide) "s2", h.2.1 "gA" (by decide) "s2", h.2.2.2⟩

/-- Counterexample for C3: from a state where s1 and s2 are both in the g1
room, s1 calls leave-group twice. The second call still acks success, but
it emits the presence-inactive broadcast again and s2 receives a second
identical presence-inactive event, contradicting the claim that no
duplicate presence-inactive broadcast occurs beyond the first call. -/
theorem leave_group_second_call_duplicates_broadcast :
    (handleLeaveGroup dbDemo
        (handleLeaveGroup dbDemo stBoth sockA (some "g1")).state
        sockA (some "g1")).ack.success = true ∧
    deliveriesOf (handleLeaveGroup dbDemo stBoth sockA (some "g1")).state
        (handleLeaveGroup dbDemo stBoth sockA (some "g1")).emits
      = [⟨"s2", .userInactive "u1" "a@x" "g1" "offline"⟩] ∧
    deliveriesOf
        (handleLeaveGroup dbDemo
          (handleLeaveGroup dbDemo stBoth sockA (some "g1")).state
          sockA (some "g1")).state
        (handleLeaveGroup dbDemo
          (handleLeaveGroup dbDemo stBoth sockA (some "g1")).state
          sockA (some "g1")).emits
      = [⟨"s2", .userInactive "u1" "a@x" "g1" "offline"⟩] := by
  refine ⟨rfl, ?_, ?_⟩ <;> decide

/-- C3 amended: a second leave-group call for the same room still acks
success (leaving a room never joined is not an error), and it re-emits the
same presence-inactive broadcast, delivering a duplicate event to exactly
the same remaining room members as the first call. -/
theorem leave_group_second_call_ack_and_repeat (db : Db) (st : SrvState) (sock : Socket)
    (gid : String) (hgid : gid ≠ "") :
    (handleLeaveGroup db (handleLeaveGroup db st sock (some gid)).state
        sock (some gid)).ack
      = { success := true, message := some "Successfully left group room" } ∧
    (handleLeaveGroup db (handleLeaveGroup db st sock (some gid)).state
        sock (some gid)).emits
      = (handleLeaveGroup db st sock (some gid)).emits ∧
    deliveriesOf
        (handleLeaveGroup db (handleLeaveGroup db st sock (some gid)).state
          sock (some gid)).state
        (handleLeaveGroup db (handleLeaveGroup db st sock (some gid)).state
          sock (some gid)).emits
      = deliveriesOf (handleLeaveGroup db st sock (some gid)).state
          (handleLeaveGroup db st sock (some gid)).emits := by
  have h1 : jsTruthy (some gid) = true := by simp [jsTruthy, hgid]
  refine ⟨by simp [handleLeaveGroup, h1], by simp [handleLeaveGroup, h1], ?_⟩
  simp only [handleLeaveGroup, h1, Bool.not_true, if_false, Bool.false_eq_true,
    deliveriesOf, Emission.recipients, SrvState.roomMembers, List.append_nil]
  simp only [lookupRoom_removeFromRoom, filter_bne_idem]

/-- Witness for the amended C3 at the concrete double-leave scenario. -/
theorem leave_group_second_call_ack_and_repeat_witness :
    (handleLeaveGroup dbDemo (handleLeaveGroup dbDemo stBoth sockA (some "g1")).state
        sockA (some "g1")).ack
      = { success := true, message := some "Successfully left group room" } ∧
    deliveriesOf
        (handleLeaveGroup dbDemo (handleLeaveGroup dbDemo stBoth sockA (some "g1")).state
          sockA (some "g1")).state
        (handleLeaveGroup dbDemo (handleLeaveGroup dbDemo stBoth sockA (some "g1")).state
          sockA (some "g1")).emits
      = deliveriesOf (handleLeaveGroup dbDemo stBoth sockA (some "g1")).state
          (handleLeaveGroup dbDemo stBoth sockA (some "g1")).emits := by
  have h := leave_group_second_call_ack_and_repeat dbDemo stBoth sockA "g1" (by decide)
  exact ⟨h.1, h.2.2⟩

/-- Equational description of the success path of handleSendMessage. -/
theorem handleSendMessage_success_eq (db : Db) (st : SrvState) (sock : Socket)
    (gid c : String) (now : Nat) (g : Group)
    (hgid : gid ≠ "") (hc : c ≠ "") (hg : db.findGroup gid = some g)
    (hm : g.isMember sock.user.userId = true) (htrim : jsTrim c ≠ "") :
    handleSendMessage db st sock (some gid) (some c) now =
      ⟨{ success := true, message := some "Message sent successfully",
         data := some (.msg ⟨db.nextId, gid, sock.user.userId, c, now⟩) },
       [⟨roomKey gid, some sock.sid,
         .messageNew true ⟨db.nextId, gid, sock.user.userId, c, now⟩⟩],
       st,
       { db with messages := db.messages ++ [⟨db.nextId, gid, sock.user.userId, c, now⟩],
                 nextId := db.nextId + 1 }⟩ := by
  have h1 : jsTruthy (some gid) = true := by simp [jsTruthy, hgid]
  have h2 : jsTruthy (some c) = true := by simp [jsTruthy, hc]
  have hmm := hm
  rw [Group.isMember] at hmm
  simp [handleSendMessage, MessageService.sendMessage, h1, h2, hg, hm, hmm, hc, htrim]

/-- C4: a successful send-message by an authenticated active member
persists exactly one canonical message object, acks the sender with that
same object plus a confirmation string, broadcasts that object exactly
once to every other connection in the room, and never delivers the
broadcast copy to the sender, so the sender is never double-delivered. -/
theorem send_message_success_exactly_once (db : Db) (st : SrvState) (sock : Socket)
    (gid c : String) (now : Nat) (g : Group)
    (hgid : gid ≠ "") (hc : c ≠ "") (hg : db.findGroup gid = some g)
    (hm : g.isMember sock.user.userId = true) (htrim : jsTrim c ≠ "")
    (hnd : (st.roomMembers (roomKey gid)).Nodup) :
    (handleSendMessage db st sock (some gid) (some c) now).db.messages
      = db.messages ++ [⟨db.nextId, gid, sock.user.userId, c, now⟩] ∧
    (handleSendMessage db st sock (some gid) (some c) now).ack
      = { success := true, message := some "Message sent successfully",
          data := some (.msg ⟨db.nextId, gid, sock.user.userId, c, now⟩) } ∧
    (∀ t : String,
      ((deliveriesOf (handleSendMessage db st sock (some gid) (some c) now).state
          (handleSendMessage db st sock (some gid) (some c) now).emits).count
        ⟨t, .messageNew true ⟨db.nextId, gid, sock.user.userId, c, now⟩⟩)
        = if t ∈ st.roomMembers (roomKey gid) ∧ t ≠ sock.sid then 1 else 0) ∧
    (∀ d ∈ deliveriesOf (handleSendMessage db st sock (some gid) (some c) now).state
        (handleSendMessage db st sock (some gid) (some c) now).emits,
      d.dest ≠ sock.sid) := by
  have he := handleSendMessage_success_eq db st sock gid c now g hgid hc hg hm htrim
  rw [he]
  refine ⟨rfl, rfl, ?_, ?_⟩
  · intro t
    simp only [deliveriesOf, Emission.recipients, SrvState.roomMembers, List.append_nil]
    by_cases ht : t = sock.sid
    · subst ht
      rw [count_map_mkDelivery, count_filter_bne_self]
      simp
    · rw [count_map_mkDelivery, count_filter_bne _ _ _ ht]
      rw [SrvState.roomMembers] at hnd
      rw [count_nodup _ _ hnd]
      simp [ht]
  · intro d hd
    simp only [deliveriesOf, Emission.recipients, SrvState.roomMembers, List.append_nil] at hd
    rcases List.mem_map.mp hd with ⟨s, hs, rfl⟩
    simp only [List.mem_filter] at hs
    simpa using hs.2

/-- Witness for C4: u1 sends to g1 while s1 and s2 are in the room; the
message is persisted, s2 receives exactly one broadcast copy and the
sending socket s1 receives none. -/
theorem send_message_success_exactly_once_witness :
    (handleSendMessage dbDemo stBoth sockA (some "g1") (some "hi") 7).db.messages
      = dbDemo.messages ++ [⟨dbDemo.nextId, "g1", sockA.user.userId, "hi", 7⟩] ∧
    ((deliveriesOf (handleSendMessage dbDemo stBoth sockA (some "g1") (some "hi") 7).state
        (handleSendMessage dbDemo stBoth sockA (some "g1") (some "hi") 7).emits).count
      ⟨"s2", .messageNew true ⟨dbDemo.nextId, "g1", sockA.user.userId, "hi", 7⟩⟩)
      = (if "s2" ∈ stBoth.roomMembers (roomKey "g1") ∧ "s2" ≠ sockA.sid then 1 else 0) ∧
    ((deliveriesOf (handleSendMessage dbDemo stBoth sockA (some "g1") (some "hi") 7).state
        (handleSendMessage dbDemo stBoth sockA (some "g1") (some "hi") 7).emits).count
      ⟨"s1", .messageNew true ⟨dbDemo.nextId, "g1", sockA.user.userId, "hi", 7⟩⟩)
      = (if "s1" ∈ stBoth.roomMembers (roomKey "g1") ∧ "s1" ≠ sockA.sid then 1 else 0) := by
  have h := send_message_success_exactly_once dbDemo stBoth sockA "g1" "hi" 7 gDemo
    (by decide) (by decide) (by decide) (by decide) (by decide) (by decide)
  exact ⟨h.1, h.2.2.1 "s2", h.2.2.1 "s1"⟩

/-- C5, evaluated at the failing input: a join-group request by u3, whose
membership status in the existing group g1 is pending, is rejected with a
single ack and without any state mutation, but the ack error field is none
rather than NOT_GROUP_MEMBER: the handler writes error: error.code while
the AuthorizationError stores the code under errorCode, so the
NOT_GROUP_MEMBER code passed to the constructor is dropped. The
missing-group half of the claim does hold: joining the absent group gX
acks GROUP_NOT_FOUND with no mutation. -/
theorem join_group_pending_member_ack_lacks_error_code :
    (handleJoinGroup dbDemo stJoin sockC (some "g1")).ack
      = { success := false, message := some "You are not a member of this group",
          error := none } ∧
    (handleJoinGroup dbDemo stJoin sockC (some "g1")).state = stJoin ∧
    (handleJoinGroup dbDemo stJoin sockC (some "g1")).emits = [] ∧
    (handleJoinGroup dbDemo stJoin sockA (some "gX")).ack
      = { success := false, message := some "Group not found",
          error := some "GROUP_NOT_FOUND" } ∧
    (handleJoinGroup dbDemo stJoin sockA (some "gX")).state = stJoin ∧
    (handleJoinGroup dbDemo stJoin sockA (some "gX")).emits = [] := by
  decide

/-- C6: connection gateway cases. With no credential at all the connection
is rejected with NO_AUTH_TOKEN and never completes; with a present but
unverifiable credential it is rejected with INVALID_TOKEN and no identity
is attached (no socket is produced); with a valid credential the
connection carries userId and email from the verified claims and the
server emits one connect success event to it holding user id, email,
connection id and the server timestamp. -/
theorem connection_auth_cases :
    (∀ (env : AuthEnv) (sid : String) (now : Nat),
      attemptConnection env ⟨none, none⟩ sid now
        = .error ⟨.authentication, "Authentication error", "NO_AUTH_TOKEN"⟩) ∧
    (∀ (env : AuthEnv) (h : Handshake) (sid : String) (now : Nat) (t : String),
      extractToken h = some t → t ≠ "" → verifyToken env t = none →
      attemptConnection env h sid now
        = .error ⟨.authentication, "Invalid or expired token", "INVALID_TOKEN"⟩) ∧
    (∀ (env : AuthEnv) (h : Handshake) (sid : String) (now : Nat) (t : String)
        (iden : Identity),
      extractToken h = some t → t ≠ "" → verifyToken env t = some iden →
      attemptConnection env h sid now
        = .ok (⟨sid, ⟨iden.userId, iden.email⟩⟩,
               ⟨sid, .connectSuccess iden.userId iden.email sid now⟩)) := by
  refine ⟨?_, ?_, ?_⟩
  · intro env sid now
    simp [attemptConnection, authMiddleware, extractToken, jsTruthy]
  · intro env h sid now t het ht hv
    have h2 : jsTruthy (some t) = true := by simp [jsTruthy, ht]
    simp [attemptConnection, authMiddleware, het, h2, hv]
  · intro env h sid now t iden het ht hv
    have h2 : jsTruthy (some t) = true := by simp [jsTruthy, ht]
    simp [attemptConnection, authMiddleware, het, h2, hv]

/-- Witness for C6: the three cases at the concrete one-token verifier,
with both credential positions exercised on the valid case (auth payload
and Bearer header). -/
theorem connection_auth_cases_witness :
    attemptConnection envDemo ⟨none, none⟩ "s9" 42
      = .error ⟨.authentication, "Authentication error", "NO_AUTH_TOKEN"⟩ ∧
    attemptConnection envDemo ⟨some "bad", none⟩ "s9" 42
      = .error ⟨.authentication, "Invalid or expired token", "INVALID_TOKEN"⟩ ∧
    attemptConnection envDemo ⟨some "tokA", none⟩ "s9" 42
      = .ok (⟨"s9", ⟨"u1", "a@x"⟩⟩, ⟨"s9", .connectSuccess "u1" "a@x" "s9" 42⟩) ∧
    attemptConnection envDemo ⟨none, some "Bearer tokA"⟩ "s9" 42
      = .ok (⟨"s9", ⟨"u1", "a@x"⟩⟩, ⟨"s9", .connectSuccess "u1" "a@x" "s9" 42⟩) := by
  refine ⟨connection_auth_cases.1 envDemo "s9" 42,
    connection_auth_cases.2.1 envDemo ⟨some "bad", none⟩ "s9" 42 "bad"
      (by decide) (by decide) (by decide),
    connection_auth_cases.2.2 envDemo ⟨some "tokA", none⟩ "s9" 42 "tokA" ⟨"u1", "a@x"⟩
      (by decide) (by decide) (by decide),
    connection_auth_cases.2.2 envDemo ⟨none, some "Bearer tokA"⟩ "s9" 42 "tokA" ⟨"u1", "a@x"⟩
      (by decide) (by decide) (by decide)⟩

/-- C7: a send-message request with a missing (or empty, hence falsy)
groupId or content is acked to the sender alone with INVALID_INPUT, the
store is untouched (nothing reaches persistence) and no emission of any
kind occurs. -/
theorem send_message_invalid_input_no_effects (db : Db) (st : SrvState) (sock : Socket)
    (groupId content : Option String) (now : Nat)
    (h : jsTruthy groupId = false ∨ jsTruthy content = false) :
    handleSendMessage db st sock groupId content now
      = ⟨{ success := false, message := some "Group ID and message content are required",
           error := some "INVALID_INPUT" }, [], st, db⟩ := by
  rcases h with h | h <;> simp [handleSendMessage, h]

/-- Witness for C7: missing content and missing groupId at a concrete
state. -/
theorem send_message_invalid_input_no_effects_witness :
    handleSendMessage dbDemo stBoth sockA (some "g1") none 7
      = ⟨{ success := false, message := some "Group ID and message content are required",
           error := some "INVALID_INPUT" }, [], stBoth, dbDemo⟩ ∧
    handleSendMessage dbDemo stBoth sockA none (some "hi") 7
      = ⟨{ success := false, message := some "Group ID and message content are required",
           error := some "INVALID_INPUT" }, [], stBoth, dbDemo⟩ := by
  exact ⟨send_message_invalid_input_no_effects dbDemo stBoth sockA (some "g1") none 7
      (Or.inr (by decide)),
    send_message_invalid_input_no_effects dbDemo stBoth sockA none (some "hi") 7
      (Or.inl (by decide))⟩

/-- C8: a read-receipt request with both fields present broadcasts one
read-notification, carrying the message id, the reader identity and the
server timestamp, to every connection in the room, the reader included
when its socket is in the room (room-wide, no sender exclusion), acks the
caller with a bare success flag and changes nothing; with either field
missing the caller gets INVALID_INPUT and nothing is emitted. -/
theorem read_receipt_room_wide :
    (∀ (db : Db) (st : SrvState) (sock : Socket) (mid gid : String) (now : Nat),
      mid ≠ "" → gid ≠ "" → (st.roomMembers (roomKey gid)).Nodup →
      (handleMessageRead db st sock (some mid) (some gid) now).ack = { success := true } ∧
      (handleMessageRead db st sock (some mid) (some gid) now).state = st ∧
      (handleMessageRead db st sock (some mid) (some gid) now).db = db ∧
      (∀ t : String,
        ((deliveriesOf (handleMessageRead db st sock (some mid) (some gid) now).state
            (handleMessageRead db st sock (some mid) (some gid) now).emits).count
          ⟨t, .messageRead mid sock.user.userId sock.user.email now⟩)
          = if t ∈ st.roomMembers (roomKey gid) then 1 else 0) ∧
      (sock.sid ∈ st.roomMembers (roomKey gid) →
        Delivery.mk sock.sid (.messageRead mid sock.user.userId sock.user.email now)
          ∈ deliveriesOf (handleMessageRead db st sock (some mid) (some gid) now).state
              (handleMessageRead db st sock (some mid) (some gid) now).emits)) ∧
    (∀ (db : Db) (st : SrvState) (sock : Socket) (midO gidO : Option String) (now : Nat),
      jsTruthy midO = false ∨ jsTruthy gidO = false →
      handleMessageRead db st sock midO gidO now
        = ⟨{ success := false, message := some "Message ID and group ID are required",
             error := some "INVALID_INPUT" }, [], st, db⟩) := by
  constructor
  · intro db st sock mid gid now hmid hgid hnd
    have h1 : jsTruthy (some mid) = true := by simp [jsTruthy, hmid]
    have h2 : jsTruthy (some gid) = true := by simp [jsTruthy, hgid]
    have he : handleMessageRead db st sock (some mid) (some gid) now
        = ⟨{ success := true },
           [⟨roomKey gid, none, .messageRead mid sock.user.userId sock.user.email now⟩],
           st, db⟩ := by
      simp [handleMessageRead, h1, h2]
    rw [he]
    refine ⟨rfl, rfl, rfl, ?_, ?_⟩
    · intro t
      simp only [deliveriesOf, Emission.recipients, SrvState.roomMembers, List.append_nil]
      rw [count_map_mkDelivery]
      rw [SrvState.roomMembers] at hnd
      exact count_nodup _ _ hnd
    · intro hmem
      simp only [deliveriesOf, Emission.recipients, SrvState.roomMembers, List.append_nil]
      rw [SrvState.roomMembers] at hmem
      exact List.mem_map_of_mem _ hmem
  · intro db st sock midO gidO now h
    rcases h with h | h <;> simp [handleMessageRead, h]

/-- Witness for C8: s1 reads in the g1 room holding s1 and s2; both s2 and
the reader socket s1 receive exactly one read-notification; a request
without a messageId gets INVALID_INPUT. -/
theorem read_receipt_room_wide_witness :
    (handleMessageRead dbDemo stBoth sockA (some "m1") (some "g1") 9).ack
      = { success := true } ∧
    ((deliveriesOf (handleMessageRead dbDemo stBoth sockA (some "m1") (some "g1") 9).state
        (handleMessageRead dbDemo stBoth sockA (some "m1") (some "g1") 9).emits).count
      ⟨"s1", .messageRead "m1" sockA.user.userId sockA.user.email 9⟩)
      = (if "s1" ∈ stBoth.roomMembers (roomKey "g1") then 1 else 0) ∧
    ((deliveriesOf (handleMessageRead dbDemo stBoth sockA (some "m1") (some "g1") 9).state
        (handleMessageRead dbDemo stBoth sockA (some "m1") (some "g1") 9).emits).count
      ⟨"s2", .messageRead "m1" sockA.user.userId sockA.user.email 9⟩)
      = (if "s2" ∈ stBoth.roomMembers (roomKey "g1") then 1 else 0) ∧
    handleMessageRead dbDemo stBoth sockA none (some "g1") 9
      = ⟨{ success := false, message := some "Message ID and group ID are required",
           error := some "INVALID_INPUT" }, [], stBoth, dbDemo⟩ := by
  have h := read_receipt_room_wide.1 dbDemo stBoth sockA "m1" "g1" 9
    (by decide) (by decide) (by decide)
  exact ⟨h.1, h.2.2.2.1 "s1", h.2.2.2.1 "s2",
    read_receipt_room_wide.2 dbDemo stBoth sockA none (some "g1") 9 (Or.inl (by decide))⟩

/-- Counterexample for C9: in a room holding two connections s1 and s1b of
the same user u1, get-active-users returns two entries for the single
distinct identity present, so the returned list is not a list of distinct
identities with one entry per identity. -/
theorem get_active_users_duplicate_identity :
    (handleGetActiveUsers dbDemo stDup sockA (some "g1")).ack.data
      = some (.users [⟨"u1", "a@x", "online"⟩, ⟨"u1", "a@x", "online"⟩]) ∧
    ¬ (([⟨"u1", "a@x", "online"⟩, ⟨"u1", "a@x", "online"⟩] : List ActiveUser).map
        (fun a => a.userId)).Nodup ∧
    ((stDup.roomSockets (roomKey "g1")).map (fun s => s.user)).dedup.length = 1 := by
  refine ⟨by decide, by decide, by decide⟩

/-- C9 amended: for an active member of an existing group,
get-active-users acks the room occupancy with one entry per connected
socket in the room (a user with several connections appears once per
connection), each entry carrying that socket user id, email and status
online, with no emission and no state change; a missing group acks
GROUP_NOT_FOUND, and a non-member is rejected with the same ack join
produces, whose error field is none because the AuthorizationError code is
read from the nonexistent property error.code. -/
theorem get_active_users_per_socket :
    (∀ (db : Db) (st : SrvState) (sock : Socket) (gid : String) (g : Group),
      gid ≠ "" → db.findGroup gid = some g → g.isMember sock.user.userId = true →
      handleGetActiveUsers db st sock (some gid)
        = ⟨{ success := true,
             data := some (.users ((st.roomSockets (roomKey gid)).map
               (fun s => ⟨s.user.userId, s.user.email, "online"⟩))) }, [], st, db⟩) ∧
    (∀ (db : Db) (st : SrvState) (sock : Socket) (gid : String),
      gid ≠ "" → db.findGroup gid = none →
      handleGetActiveUsers db st sock (some gid)
        = ⟨{ success := false, message := some "Group not found",
             error := some "GROUP_NOT_FOUND" }, [], st, db⟩) ∧
    (∀ (db : Db) (st : SrvState) (sock : Socket) (gid : String) (g : Group),
      gid ≠ "" → db.findGroup gid = some g → g.isMember sock.user.userId = false →
      handleGetActiveUsers db st sock (some gid)
        = ⟨{ success := false, message := some "You are not a member of this group",
             error := none }, [], st, db⟩) := by
  refine ⟨?_, ?_, ?_⟩
  · intro db st sock gid g hgid hg hm
    have h1 : jsTruthy (some gid) = true := by simp [jsTruthy, hgid]
    rw [Group.isMember] at hm
    simp [handleGetActiveUsers, h1, hg, hm, AppErr.code]
  · intro db st sock gid hgid hg
    have h1 : jsTruthy (some gid) = true := by simp [jsTruthy, hgid]
    simp [handleGetActiveUsers, h1, hg]
  · intro db st sock gid g hgid hg hm
    have h1 : jsTruthy (some gid) = true := by simp [jsTruthy, hgid]
    rw [Group.isMember] at hm
    simp [handleGetActiveUsers, h1, hg, hm, AppErr.code]

/-- Witness for the amended C9: the duplicate-connection state, the absent
group and the pending member. -/
theorem get_active_users_per_socket_witness :
    handleGetActiveUsers dbDemo stDup sockA (some "g1")
      = ⟨{ success := true,
           data := some (.users ((stDup.roomSockets (roomKey "g1")).map
             (fun s => ⟨s.user.userId, s.user.email, "online"⟩))) }, [], stDup, dbDemo⟩ ∧
    handleGetActiveUsers dbDemo stJoin sockA (some "gX")
      = ⟨{ success := false, message := some "Group not found",
           error := some "GROUP_NOT_FOUND" }, [], stJoin, dbDemo⟩ ∧
    handleGetActiveUsers dbDemo stJoin sockC (some "g1")
      = ⟨{ success := false, message := some "You are not a member of this group",
           error := none }, [], stJoin, dbDemo⟩ := by
  exact ⟨get_active_users_per_socket.1 dbDemo stDup sockA "g1" gDemo
      (by decide) (by decide) (by decide),
    get_active_users_per_socket.2.1 dbDemo stJoin sockA "gX" (by decide) (by decide),
    get_active_users_per_socket.2.2 dbDemo stJoin sockC "g1" gDemo
      (by decide) (by decide) (by decide)⟩

/-- C10: handleMessageRead never consults the store: its ack, emissions
and room-state result are identical for any two stores, and even when the
group does not exist or the reader is not a member of it, a request with
both fields present still broadcasts the read-notification into the group
room and acks success. -/
theorem read_receipt_no_membership_check :
    (∀ (db db2 : Db) (st : SrvState) (sock : Socket) (midO gidO : Option String)
        (now : Nat),
      (handleMessageRead db st sock midO gidO now).ack
        = (handleMessageRead db2 st sock midO gidO now).ack ∧
      (handleMessageRead db st sock midO gidO now).emits
        = (handleMessageRead db2 st sock midO gidO now).emits ∧
      (handleMessageRead db st sock midO gidO now).state
        = (handleMessageRead db2 st sock midO gidO now).state ∧
      (handleMessageRead db st sock midO gidO now).db = db) ∧
    (∀ (db : Db) (st : SrvState) (sock : Socket) (mid gid : String) (now : Nat),
      mid ≠ "" → gid ≠ "" →
      (db.findGroup gid = none ∨
        ∃ g, db.findGroup gid = some g ∧ g.isMember sock.user.userId = false) →
      (handleMessageRead db st sock (some mid) (some gid) now).emits
        = [⟨roomKey gid, none, .messageRead mid sock.user.userId sock.user.email now⟩] ∧
      (handleMessageRead db st sock (some mid) (some gid) now).ack
        = { success := true }) := by
  constructor
  · intro db db2 st sock midO gidO now
    by_cases h : (!(jsTruthy midO) || !(jsTruthy gidO)) = true <;>
      simp [handleMessageRead, h]
  · intro db st sock mid gid now hmid hgid _
    have h1 : jsTruthy (some mid) = true := by simp [jsTruthy, hmid]
    have h2 : jsTruthy (some gid) = true := by simp [jsTruthy, hgid]
    simp [handleMessageRead, h1, h2]

/-- Witness for C10: a read-receipt into the room of a group absent from
the store (gX) and one where the reader is a pending member (u3 in g1)
both broadcast and ack success, and swapping the store for an empty one
changes nothing observable. -/
theorem read_receipt_no_membership_check_witness :
    (handleMessageRead dbDemo stBoth sockA (some "m1") (some "gX") 9).emits
      = [⟨roomKey "gX", none, .messageRead "m1" sockA.user.userId sockA.user.email 9⟩] ∧
    (handleMessageRead dbDemo stBoth sockA (some "m1") (some "gX") 9).ack
      = { success := true } ∧
    (handleMessageRead dbDemo stBoth sockC (some "m1") (some "g1") 9).ack
      = { success := true } ∧
    (handleMessageRead dbDemo stBoth sockA (some "m1") (some "g1") 9).ack
      = (handleMessageRead ⟨[], [], 0⟩ stBoth sockA (some "m1") (some "g1") 9).ack := by
  have hA := read_receipt_no_membership_check.2 dbDemo stBoth sockA "m1" "gX" 9
    (by decide) (by decide) (Or.inl (by decide))
  have hC := read_receipt_no_membership_check.2 dbDemo stBoth sockC "m1" "g1" 9
    (by decide) (by decide) (Or.inr ⟨gDemo, by decide, by decide⟩)
  have hI := (read_receipt_no_membership_check.1 dbDemo ⟨[], [], 0⟩ stBoth sockA
    (some "m1") (some "g1") 9).1
  exact ⟨hA.1, hA.2, hC.2, hI⟩

end GroupMsg
